import Mathlib

/-!
Verification of the printer-monitoring system's discovery and metrics
collection core against its specification.

The definitions below are a shallow embedding of the Python source:

  * `snmp_get`, `get_supply_info`, `calculate_toner_percentage`,
    `get_printer_metrics_async`, `get_or_create_printer`, `save_metrics`
    embed the functions of the same names in `printer_monitor.py`;
  * `snmp_walk` and `diagnose_supply_outcome` embed `snmp_walk` and the
    per-supply calculation block of `diagnose_printer` in
    `fix_toner_reading.py`;
  * `add_printer_to_db` and `ping_sweep_windows` embed the functions of
    the same names in `auto_configure_monitoring.py`.

The network is abstracted: a probe's outcome (exception, protocol error,
returned value) is an explicit argument, so every network-dependent
function becomes a pure function of the device's responses.  Python
integers are `Int`/`Nat`; Python's binary64 floating-point division and
multiplication (used in the percentage computation) are modelled exactly
by round-to-nearest-even onto a 53-bit significand, carried out on
rational numbers represented as pairs of naturals.
-/

/-! ## String utilities: Python `in`, truthiness, `int()` -/

/-- `leadsWith pat cs`: the character list `pat` is an initial segment of
`cs`.  Helper for the substring test. -/
def leadsWith : List Char → List Char → Bool
  | [], _ => true
  | _ :: _, [] => false
  | p :: ps, c :: cs => p == c && leadsWith ps cs

/-- `hasSub pat cs`: `pat` occurs as a contiguous segment of `cs`.  Helper
for the substring test. -/
def hasSub (pat : List Char) : List Char → Bool
  | [] => pat.isEmpty
  | c :: cs => leadsWith pat (c :: cs) || hasSub pat cs

/-- Python's `sub in s` substring test (`True` for the empty pattern). -/
def strContains (s pat : String) : Bool :=
  hasSub pat.toList s.toList

/-- Python truthiness of an optional string: `None` and `""` are falsy,
every other string is truthy. -/
def truthyS : Option String → Bool
  | none => false
  | some s => s != ""

/-- ASCII whitespace, as stripped by Python's `str.strip()` (the
non-ASCII whitespace Python also strips does not occur here). -/
def isSpaceCh (c : Char) : Bool :=
  c == ' ' || c == '\t' || c == '\n' || c == '\r' || c == '\x0b' || c == '\x0c'

/-- Python's `s.strip()`: leading and trailing whitespace removed. -/
def pyStrip (cs : List Char) : List Char :=
  ((cs.dropWhile isSpaceCh).reverse.dropWhile isSpaceCh).reverse

/-- Python's `s.lower()` (ASCII; the inputs here are ASCII). -/
def pyLower (s : String) : String :=
  ⟨s.data.map Char.toLower⟩

/-- Value of a list of decimal digits (most significant first). -/
def digitsVal : List Char → Nat → Nat
  | [], acc => acc
  | c :: cs, acc => digitsVal cs (acc * 10 + (c.toNat - 48))

/-- All characters are ASCII decimal digits and the list is nonempty. -/
def allDigits (cs : List Char) : Bool :=
  !cs.isEmpty && cs.all Char.isDigit

/-- Python's `int(s)` on a decimal string: surrounding whitespace is
stripped, an optional single sign is allowed, then at least one digit;
anything else raises `ValueError`, modelled as `none`.  (Underscore digit
separators and non-ASCII digits, which CPython also accepts, do not occur
in this system's inputs and are not modelled.) -/
def pyInt? (s : String) : Option Int :=
  match pyStrip s.data with
  | '-' :: cs => if allDigits cs then some (-(digitsVal cs 0 : Int)) else none
  | '+' :: cs => if allDigits cs then some ((digitsVal cs 0 : Int)) else none
  | cs => if allDigits cs then some ((digitsVal cs 0 : Int)) else none

/-! ## Exact model of CPython's binary64 arithmetic for `int((c / m) * 100)`

CPython evaluates `current_val / max_val` as IEEE-754 binary64 true
division (round to nearest, ties to even), multiplies by `100` with the
same rounding, and `int(...)` truncates toward zero.  A positive binary64
is a significand `m ∈ [2^52, 2^53)` times a power of two; we model the
exponent as an unbounded `Int` (the inputs at issue, SNMP Integer32
levels and capacities, keep every intermediate far from binary64
overflow and subnormal ranges, where this model is exact). -/

/-- The rational `p / q` scaled by `2^(-e)`, as a pair numerator,
denominator. -/
def scaled (p q : Nat) (e : Int) : Nat × Nat :=
  if 0 ≤ e then (p, q * 2 ^ e.toNat) else (p * 2 ^ (-e).toNat, q)

/-- Nearest integer to `p / q` (`q > 0`), ties to even. -/
def rndHalfEven (p q : Nat) : Nat :=
  let d := p / q
  let r := p % q
  if 2 * r < q then d
  else if q < 2 * r then d + 1
  else if d % 2 = 0 then d else d + 1

/-- `floor (log2 n)` by structural recursion on a fuel bound (`n` itself
suffices), so that the kernel can evaluate it. -/
def log2fuel : Nat → Nat → Nat
  | 0, _ => 0
  | fuel + 1, n => if 2 ≤ n then log2fuel fuel (n / 2) + 1 else 0

/-- `floor (log2 n)` for `n ≥ 1` (0 for 0). -/
def natLog2 (n : Nat) : Nat := log2fuel n n

/-- `floor (log2 (p / q))` for `p, q > 0`. -/
def floorLog2Rat (p q : Nat) : Int :=
  let g : Int := (natLog2 p : Int) - (natLog2 q : Int)
  let pr := scaled p q g
  if pr.2 ≤ pr.1 then g else g - 1

/-- Round the positive rational `p / q` to the nearest binary64
(significand, exponent), ties to even. -/
def roundToDouble (p q : Nat) : Nat × Int :=
  let e := floorLog2Rat p q - 52
  let pr := scaled p q e
  let m := rndHalfEven pr.1 pr.2
  if m = 2 ^ 53 then (2 ^ 52, e + 1) else (m, e)

/-- The binary64 product of a rounded value with the exact constant
`100`, rounded to nearest, ties to even. -/
def mulHundred (x : Nat × Int) : Nat × Int :=
  if 0 ≤ x.2 then roundToDouble (x.1 * 100 * 2 ^ x.2.toNat) 1
  else roundToDouble (x.1 * 100) (2 ^ (-x.2).toNat)

/-- Truncation toward zero of a nonnegative (significand, exponent)
value, as Python's `int(...)` of a float. -/
def truncD (x : Nat × Int) : Nat :=
  if 0 ≤ x.2 then x.1 * 2 ^ x.2.toNat else x.1 / 2 ^ (-x.2).toNat

/-- CPython's `int((c / m) * 100)` for `c ≥ 0`, `m > 0`: binary64
division, binary64 multiplication by 100, truncation. -/
def pyPercent (c m : Nat) : Nat :=
  truncD (mulHundred (roundToDouble c m))

/-! ## The percentage derivation (`printer_monitor.calculate_toner_percentage`)

Source, printer_monitor.py lines 129-151.  The Python function receives
the SNMP values as strings and converts them with `int(...)` inside a
`try`; a `ValueError` yields `(None, "Error")`.  `calculate_toner_percentage_core`
is the body after both conversions succeeded. -/

/-- Body of `calculate_toner_percentage` after `int()` succeeded on both
arguments (printer_monitor.py lines 135-148).  Returns the pair
(percentage, status) exactly as the source does. -/
def calculate_toner_percentage_core (c m : Int) : Option Int × Option String :=
  if c = -3 then (none, some "OK")
  else if c = -2 then (none, some "Unknown")
  else if c < 0 then (none, some ("Status: " ++ toString c))
  else if 0 < m ∧ m ≠ -2 then (some ((pyPercent c.toNat m.toNat : Nat) : Int), none)
  else (none, some "Cannot calculate")

/-- `calculate_toner_percentage(current, max_capacity)` of
printer_monitor.py lines 129-151, on the SNMP value strings. -/
def calculate_toner_percentage (current maxCapacity : String) :
    Option Int × Option String :=
  match pyInt? current, pyInt? maxCapacity with
  | some c, some m => calculate_toner_percentage_core c m
  | _, _ => (none, some "Error")

/-! ## Supply rows and the metrics extractor
(`printer_monitor.get_supply_info`, `get_printer_metrics_async`) -/

/-- One supply-table row as assembled by `get_supply_info`
(printer_monitor.py lines 111-127): each field holds the SNMP value when
the probe returned one, `none` when it did not resolve. -/
structure Supply where
  description : Option String
  type : Option String
  unit : Option String
  max_capacity : Option String
  current_level : Option String
deriving DecidableEq

/-- `get_supply_info` (printer_monitor.py lines 111-127): each of the
five per-row probes contributes its value only when truthy, and an
entirely empty row is reported as `none` (the Python function returns
`None` for an empty dict). -/
def get_supply_info (d t u mc cl : Option String) : Option Supply :=
  let keep : Option String → Option String := fun v => if truthyS v then v else none
  let s : Supply := ⟨keep d, keep t, keep u, keep mc, keep cl⟩
  if s = ⟨none, none, none, none, none⟩ then none else some s

/-- The metrics dictionary of `get_printer_metrics_async`
(printer_monitor.py lines 165-172). -/
structure Metrics where
  total_pages : Option Int
  model : Option String
  device_status : Option Int
  toner_level_pct : Option Int
  toner_status : Option String
  drum_level_pct : Option Int
deriving DecidableEq

/-- The all-`None` initial metrics dictionary. -/
def initMetrics : Metrics := ⟨none, none, none, none, none, none⟩

/-- The lower-cased description used for keyword matching
(printer_monitor.py line 202). -/
def descOf (s : Supply) : String := pyLower (s.description.getD "")

/-- Row classification `'toner' in desc and 'black' in desc`
(printer_monitor.py line 210). -/
def isTonerRow (s : Supply) : Bool :=
  strContains (descOf s) "toner" && strContains (descOf s) "black"

/-- Row classification `'drum' in desc` (printer_monitor.py line 220). -/
def isDrumRow (s : Supply) : Bool :=
  strContains (descOf s) "drum"

/-- The toner branch of the supply loop (printer_monitor.py lines
211-217): a non-`None` percentage is stored, otherwise a truthy status
string is stored. -/
def applyToner (m : Metrics) (r : Option Int × Option String) : Metrics :=
  match r.1 with
  | some p => { m with toner_level_pct := some p }
  | none =>
    match r.2 with
    | some st => if st ≠ "" then { m with toner_status := some st } else m
    | none => m

/-- The drum branch of the supply loop (printer_monitor.py lines
221-224): only a non-`None` percentage is stored; the metrics dictionary
has no drum-status key, so a status outcome changes nothing. -/
def applyDrum (m : Metrics) (r : Option Int × Option String) : Metrics :=
  match r.1 with
  | some p => { m with drum_level_pct := some p }
  | none => m

/-- One iteration of the supply loop of `get_printer_metrics_async`
(printer_monitor.py lines 197-224) on a row that `get_supply_info`
returned: rows whose current level or max capacity did not resolve are
skipped before the description keywords are consulted. -/
def processSupply (metrics : Metrics) (s : Supply) : Metrics :=
  if truthyS s.current_level && truthyS s.max_capacity then
    if isTonerRow s then
      applyToner metrics
        (calculate_toner_percentage (s.current_level.getD "") (s.max_capacity.getD ""))
    else if isDrumRow s then
      applyDrum metrics
        (calculate_toner_percentage (s.current_level.getD "") (s.max_capacity.getD ""))
    else metrics
  else metrics

/-- `if total_pages: try: ... int(total_pages) except ValueError: pass`
(printer_monitor.py lines 175-181). -/
def setTotalPages (m : Metrics) (tp : Option String) : Metrics :=
  if truthyS tp then
    match pyInt? (tp.getD "") with
    | some n => { m with total_pages := some n }
    | none => m
  else m

/-- `if model: metrics['model'] = model` (printer_monitor.py lines
183-186). -/
def setModel (m : Metrics) (mo : Option String) : Metrics :=
  if truthyS mo then { m with model := mo } else m

/-- `if device_status: try: ... int(device_status) except ValueError:
pass` (printer_monitor.py lines 188-193). -/
def setDeviceStatus (m : Metrics) (ds : Option String) : Metrics :=
  if truthyS ds then
    match pyInt? (ds.getD "") with
    | some n => { m with device_status := some n }
    | none => m
  else m

/-- The supply loop `for index in range(1, 10)` (printer_monitor.py lines
197-224): `supplyAt i` is the row `get_supply_info(ip, i)` returned, and
`None` rows are skipped. -/
def foldSupplies (m : Metrics) (supplyAt : Nat → Option Supply) : Metrics :=
  (List.range' 1 9).foldl
    (fun acc i =>
      match supplyAt i with
      | some s => processSupply acc s
      | none => acc)
    m

/-- `any(v is not None for v in metrics.values())` (printer_monitor.py
line 226).  Note that the device-reported `model` counts. -/
def anyFieldSome (m : Metrics) : Bool :=
  m.total_pages.isSome || m.model.isSome || m.device_status.isSome ||
    m.toner_level_pct.isSome || m.toner_status.isSome || m.drum_level_pct.isSome

/-- `get_printer_metrics_async` (printer_monitor.py lines 153-226) with
the network abstracted: `tp`, `mo`, `ds` are the page-counter, model and
device-status probe results and `supplyAt` the supply rows; the
assembled dictionary is returned only when some field resolved. -/
def get_printer_metrics_async (tp mo ds : Option String)
    (supplyAt : Nat → Option Supply) : Option Metrics :=
  let m := foldSupplies (setDeviceStatus (setModel (setTotalPages initMetrics tp) mo) ds) supplyAt
  if anyFieldSome m then some m else none

/-- One row of the `metrics` table. -/
structure MetricRow where
  printer_id : Nat
  total_pages : Option Int
  toner_level_pct : Option Int
  toner_status : Option String
  drum_level_pct : Option Int
  device_status : Option Int
deriving DecidableEq

/-- `save_metrics` (printer_monitor.py lines 301-327): a pure insert of
the five metric columns; the dictionary's `model` entry is not among
them. -/
def save_metrics (printer_id : Nat) (m : Metrics) : MetricRow :=
  ⟨printer_id, m.total_pages, m.toner_level_pct, m.toner_status,
    m.drum_level_pct, m.device_status⟩

/-- The per-printer body of `monitor_printers` (printer_monitor.py lines
608-626): metrics are saved only when the collection call returned a
dictionary. -/
def monitorStep (printer_id : Nat) (collected : Option Metrics) : Option MetricRow :=
  match collected with
  | some m => some (save_metrics printer_id m)
  | none => none

/-! ## The single-value probe (`printer_monitor.snmp_get`) -/

/-- What one SNMP round trip can come back with: a raised exception
anywhere in the call, or the `(errorIndication, errorStatus, value)`
triple of `getCmd` with the first variable binding rendered as a string.
The network is abstracted by passing this outcome in. -/
inductive SnmpResponse where
  | exn : SnmpResponse
  | result (errorIndication : Bool) (errorStatus : Bool) (value : String) : SnmpResponse
deriving DecidableEq

/-- `snmp_get(ip, oid, timeout)` of printer_monitor.py lines 77-109 as a
total function of the response: an error indication or error status
yields `None`, a value containing `"No Such"` or empty after `strip()`
yields `None`, any exception yields `None`; otherwise the value.  `ip`,
`oid` and `timeout` do not influence this decoding. -/
def snmp_get (ip oid : String) (timeout : Nat) (resp : SnmpResponse) : Option String :=
  match resp with
  | .exn => none
  | .result errorIndication errorStatus value =>
    if errorIndication then none
    else if errorStatus then none
    else if !(strContains value "No Such") && !(pyStrip value.data).isEmpty then some value
    else none

/-! ## The simulated table walk (`fix_toner_reading.snmp_walk`) -/

/-- Outcome of probing one index during the walk: an exception inside
the loop body, an error indication or status, or a returned value. -/
inductive WalkResp where
  | exn : WalkResp
  | err : WalkResp
  | ok (value : String) : WalkResp
deriving DecidableEq

/-- The value test of fix_toner_reading.py line 36:
`"No Such" not in value and value.strip() and value != ""`. -/
def goodVal (v : String) : Bool :=
  !(strContains v "No Such") && !(pyStrip v.data).isEmpty && v != ""

/-- The loop of `snmp_walk` (fix_toner_reading.py lines 21-43) over the
remaining indices, carrying the results accumulated so far.  An
exception or a protocol error breaks the loop; a good value is appended;
a missing value breaks only when the index is past 5 and something was
already collected, and is skipped otherwise. -/
def walkIdx (resp : Nat → WalkResp) : List Nat → List (Nat × String) → List (Nat × String)
  | [], acc => acc
  | i :: rest, acc =>
    match resp i with
    | .exn => acc
    | .err => acc
    | .ok v =>
      if goodVal v then walkIdx resp rest (acc ++ [(i, v)])
      else if 5 < i ∧ acc ≠ [] then acc
      else walkIdx resp rest acc

/-- `snmp_walk(ip, base_oid)` of fix_toner_reading.py lines 14-50:
indices 1 through 19 (`range(1, 20)`) are probed in order and each
collected pair is reported as `(base_oid.index, value)`. -/
def snmp_walk (resp : Nat → WalkResp) (base : String) : List (String × String) :=
  (walkIdx resp (List.range' 1 19) []).map
    (fun p => (base ++ "." ++ toString p.1, p.2))

/-! ## The diagnostic percentage block (`fix_toner_reading.diagnose_printer`) -/

/-- What the calculation block of `diagnose_printer`
(fix_toner_reading.py lines 186-212) reports for one supply row, with
the printed lines abstracted into an outcome. -/
inductive DiagOutcome where
  | percentDirect (p : Int) : DiagOutcome
  | calculated (c m : Int) : DiagOutcome
  | statusUnknown : DiagOutcome
  | statusOK : DiagOutcome
  | cannotCalculate : DiagOutcome
  | parseError : DiagOutcome
deriving DecidableEq

/-- The per-row calculation of `diagnose_printer` (fix_toner_reading.py
lines 186-212): when the unit name is `percent` the current level is the
percentage directly, for every max capacity; otherwise the general rule
applies.  An `int()` failure on either value is the `except` branch. -/
def diagnose_supply_outcome (unit : String) (current maxCap : String) : DiagOutcome :=
  match pyInt? current, pyInt? maxCap with
  | some c, some m =>
    if unit = "percent" then .percentDirect c
    else if 0 < m ∧ m ≠ -2 ∧ c ≠ -2 ∧ c ≠ -3 then .calculated c m
    else if c = -2 then .statusUnknown
    else if c = -3 then .statusOK
    else .cannotCalculate
  | _, _ => .parseError

/-! ## The printers table
(`printer_monitor.get_or_create_printer`, `auto_configure_monitoring.add_printer_to_db`) -/

/-- One row of the `printers` table.  `first_seen` defaults to the
insertion time and is never listed in any `UPDATE`. -/
structure PrinterRow where
  id : Nat
  ip : String
  name : String
  location : Option String
  model : Option String
  first_seen : Nat
deriving DecidableEq

/-- The `printers` table plus its autoincrement counter. -/
structure PrintersDB where
  rows : List PrinterRow
  nextId : Nat
deriving DecidableEq

/-- A freshly initialised database. -/
def emptyDB : PrintersDB := ⟨[], 1⟩

/-- `SELECT id FROM printers WHERE ip = ?` (first match). -/
def findByIp : List PrinterRow → String → Option PrinterRow
  | [], _ => none
  | r :: rs, ip => if r.ip = ip then some r else findByIp rs ip

/-- `UPDATE printers SET model = ? WHERE id = ? AND model IS NULL`
(printer_monitor.py lines 285-286). -/
def updateModelIfNull (rows : List PrinterRow) (rid : Nat) (model : String) :
    List PrinterRow :=
  rows.map fun q =>
    if q.id = rid ∧ q.model = none then { q with model := some model } else q

/-- `get_or_create_printer(ip, name, location, model)` of
printer_monitor.py lines 261-299: an existing address keeps its row (the
model is filled only where it is NULL, and only for a truthy model
value); a new address is inserted with `first_seen := now`.  Returns the
updated table and the printer id. -/
def get_or_create_printer (db : PrintersDB) (now : Nat) (ip name : String)
    (location : Option String) (model : Option String) : PrintersDB × Nat :=
  match findByIp db.rows ip with
  | some r =>
    if truthyS model then
      ({ db with rows := updateModelIfNull db.rows r.id (model.getD "") }, r.id)
    else (db, r.id)
  | none =>
    ({ rows := db.rows ++ [⟨db.nextId, ip, name, location, model, now⟩],
       nextId := db.nextId + 1 }, db.nextId)

/-- The discovered-printer dictionary handed to `add_printer_to_db`;
`location` and `model` may be missing (`None` here). -/
structure DiscoveredPrinter where
  ip : String
  name : String
  location : Option String
  model : Option String
deriving DecidableEq

/-- `add_printer_to_db(printer)` of auto_configure_monitoring.py lines
165-194: the INSERT succeeds when no row holds the address (with the
dictionary defaults `"Auto-discovered"` and `"Unknown"`), returning
`true`; on the unique-key conflict the row is updated with the
dictionary's `name`, `model` and `location` (no defaults: a missing key
stores NULL) and `first_seen` is untouched, returning `false`. -/
def add_printer_to_db (db : PrintersDB) (now : Nat) (p : DiscoveredPrinter) :
    PrintersDB × Bool :=
  match findByIp db.rows p.ip with
  | none =>
    ({ rows := db.rows ++
        [⟨db.nextId, p.ip, p.name, some (p.location.getD "Auto-discovered"),
          some (p.model.getD "Unknown"), now⟩],
       nextId := db.nextId + 1 }, true)
  | some _ =>
    ({ db with rows := db.rows.map fun q =>
        if q.ip = p.ip then
          { q with name := p.name, model := p.model, location := p.location }
        else q }, false)

/-! ## The liveness sweep (`ping_sweep_windows`)

Source: auto_configure_monitoring.py lines 278-310 and
printer_discovery.py lines 220-252 (identical logic).  IPv4 addresses
are naturals below `2^32`; `ipaddress.ip_network(subnet, strict=False)`
masks the host bits, and `network.hosts()` enumerates the host
addresses: all addresses strictly between network and broadcast for
prefixes up to /30, both addresses of a /31, and the single address of a
/32 (CPython's documented special cases).  The concurrent ping results
are abstracted into the predicate `alive`; the completion-order
nondeterminism of the worker pool only permutes the result, which the
claims treat as a set. -/

/-- The network address: host bits of `addr` cleared for the given
prefix length. -/
def networkAddress (addr p : Nat) : Nat :=
  addr - addr % 2 ^ (32 - p)

/-- The broadcast address: host bits of `addr` set. -/
def broadcastAddress (addr p : Nat) : Nat :=
  networkAddress addr p + 2 ^ (32 - p) - 1

/-- `ipaddress.ip_network(...).hosts()`. -/
def hostsOf (addr p : Nat) : List Nat :=
  let net := networkAddress addr p
  if p = 32 then [net]
  else if p = 31 then [net, net + 1]
  else List.range' (net + 1) (2 ^ (32 - p) - 2)

/-- `ping_sweep_windows(subnet)`: the live hosts among the subnet's host
addresses. -/
def ping_sweep_windows (alive : Nat → Bool) (addr p : Nat) : List Nat :=
  (hostsOf addr p).filter alive

/-- The percentage derivation exactly as the specification words it
(§4.4 steps 2-6), with step 5's `floor(current_level / max_capacity ×
100)` as exact integer arithmetic; stated for comparison with the
implementation (the status-string texts, which the specification leaves
open, are taken from the implementation). -/
def spec_percentage (c m : Int) : Option Int × Option String :=
  if c = -3 then (none, some "OK")
  else if c = -2 then (none, some "Unknown")
  else if c < 0 then (none, some ("Status: " ++ toString c))
  else if 0 < m then (some (Int.fdiv (c * 100) m), none)
  else (none, some "Cannot calculate")

/-- Concrete supply row for the percent-unit claim: unit code `"19"` is
`percent` in the Printer-MIB supply-unit enumeration. -/
def c1Row : Supply :=
  ⟨some "Black Toner Cartridge", some "3", some "19", some "0", some "42"⟩

/-- Concrete readable drum row whose derivation yields a status. -/
def c4DrumRow : Supply := ⟨some "Drum Unit", none, none, some "12000", some "-3"⟩

/-- Concrete readable black-toner row with a numeric level. -/
def c4TonerRow : Supply :=
  ⟨some "Black Toner Cartridge", some "3", some "7", some "100", some "30"⟩

/-- The table after `get_or_create_printer` twice on the same address. -/
def gocTwice (ip n1 n2 : String) (l1 l2 : Option String)
    (m1 m2 : Option String) (t1 t2 : Nat) : PrintersDB :=
  (get_or_create_printer
    (get_or_create_printer emptyDB t1 ip n1 l1 m1).1 t2 ip n2 l2 m2).1

/-- The table after `add_printer_to_db` twice on the same address. -/
def addTwice (ip n1 n2 : String) (l1 l2 : Option String)
    (m1 m2 : Option String) (t1 t2 : Nat) : PrintersDB :=
  (add_printer_to_db
    (add_printer_to_db emptyDB t1 ⟨ip, n1, l1, m1⟩).1 t2 ⟨ip, n2, l2, m2⟩).1

/-! ## Helper lemmas on the percentage core -/

theorem calc_core_neg3 (m : Int) :
    calculate_toner_percentage_core (-3) m = (none, some "OK") := by
  simp [calculate_toner_percentage_core]

theorem calc_core_neg2 (m : Int) :
    calculate_toner_percentage_core (-2) m = (none, some "Unknown") := by
  simp [calculate_toner_percentage_core]

theorem calc_core_other_neg (c m : Int) (h : c < 0) (h3 : c ≠ -3) (h2 : c ≠ -2) :
    calculate_toner_percentage_core c m = (none, some ("Status: " ++ toString c)) := by
  rw [calculate_toner_percentage_core, if_neg h3, if_neg h2, if_pos h]

theorem calc_core_pos (c m : Int) (h0 : 0 ≤ c) (hm : 0 < m) :
    calculate_toner_percentage_core c m =
      (some ((pyPercent c.toNat m.toNat : Nat) : Int), none) := by
  rw [calculate_toner_percentage_core, if_neg (by omega), if_neg (by omega),
    if_neg (by omega), if_pos ⟨hm, by omega⟩]

theorem calc_core_nonpos_cap (c m : Int) (h0 : 0 ≤ c) (hm : m ≤ 0) :
    calculate_toner_percentage_core c m = (none, some "Cannot calculate") := by
  rw [calculate_toner_percentage_core, if_neg (by omega), if_neg (by omega),
    if_neg (by omega), if_neg (by omega)]

theorem status_string_ne_empty (c : Int) : ("Status: " ++ toString c) ≠ "" := by
  intro h
  have hl : ("Status: " ++ toString c).length = ("" : String).length := by rw [h]
  rw [String.length_append] at hl
  have h8 : ("Status: " : String).length = 8 := by decide
  have h0 : ("" : String).length = 0 := by decide
  omega

/-- Shape of every result of `calculate_toner_percentage`: either a
numeric percentage and no status, or no percentage and a nonempty status
string. -/
theorem calc_shape (cs ms : String) :
    ((calculate_toner_percentage cs ms).1.isSome = true ∧
      (calculate_toner_percentage cs ms).2 = none) ∨
    ((calculate_toner_percentage cs ms).1 = none ∧
      ∃ st, (calculate_toner_percentage cs ms).2 = some st ∧ st ≠ "") := by
  rcases hc : pyInt? cs with _ | c
  · refine Or.inr ⟨?_, "Error", ?_, by decide⟩ <;> simp [calculate_toner_percentage, hc]
  rcases hm : pyInt? ms with _ | m
  · refine Or.inr ⟨?_, "Error", ?_, by decide⟩ <;>
      simp [calculate_toner_percentage, hc, hm]
  have hcore : calculate_toner_percentage cs ms = calculate_toner_percentage_core c m := by
    simp [calculate_toner_percentage, hc, hm]
  rw [hcore]
  by_cases h3 : c = -3
  · subst h3; rw [calc_core_neg3]; exact Or.inr ⟨rfl, "OK", rfl, by decide⟩
  by_cases h2 : c = -2
  · subst h2; rw [calc_core_neg2]; exact Or.inr ⟨rfl, "Unknown", rfl, by decide⟩
  by_cases hneg : c < 0
  · rw [calc_core_other_neg c m hneg h3 h2]
    exact Or.inr ⟨rfl, _, rfl, status_string_ne_empty c⟩
  by_cases hcap : 0 < m
  · rw [calc_core_pos c m (by omega) hcap]; exact Or.inl ⟨rfl, rfl⟩
  · rw [calc_core_nonpos_cap c m (by omega) (by omega)]
    exact Or.inr ⟨rfl, "Cannot calculate", rfl, by decide⟩

/-! ## Claim C1 -/

/-- Claim C1 fails on the monitoring path: the supply row `c1Row` has
the percent unit code (`"19"`), current level 42 and max capacity 0, yet
the extractor records no percentage (the claim demands 42) and does
record a status string (the claim demands none) — `calculate_toner_percentage`
never consults the unit. -/
theorem c1_counterexample :
    c1Row.unit = some "19" ∧
    (processSupply initMetrics c1Row).toner_level_pct = none ∧
    (processSupply initMetrics c1Row).toner_status = some "Cannot calculate" := by
  refine ⟨rfl, by decide, by decide⟩

/-- Claim C1 amended: in the diagnostic path (`diagnose_printer`) a
percent-unit row's percentage is the current level directly, for every
max capacity, with no status; in the monitoring path the unit is never
consulted, so a percent-unit row follows the general algorithm and, in
particular, a nonnegative level with max capacity ≤ 0 produces the
status `"Cannot calculate"` and no percentage. -/
theorem c1_percent_unit_amended :
    (∀ (cs ms : String) (c m : Int), pyInt? cs = some c → pyInt? ms = some m →
      diagnose_supply_outcome "percent" cs ms = DiagOutcome.percentDirect c) ∧
    (∀ c m : Int, 0 ≤ c → m ≤ 0 →
      calculate_toner_percentage_core c m = (none, some "Cannot calculate")) := by
  constructor
  · intro cs ms c m hc hm
    rw [diagnose_supply_outcome, hc, hm]
    simp
  · intro c m h0 hm
    exact calc_core_nonpos_cap c m h0 hm

/-- Both parts of the amended claim C1 evaluated at the counterexample's
numbers. -/
theorem c1_percent_unit_witness :
    diagnose_supply_outcome "percent" "42" "0" = DiagOutcome.percentDirect 42 ∧
    calculate_toner_percentage_core 42 0 = (none, some "Cannot calculate") :=
  ⟨c1_percent_unit_amended.1 "42" "0" 42 0 (by decide) (by decide),
   c1_percent_unit_amended.2 42 0 (by decide) (by decide)⟩

/-! ## Claim C3 -/

/-- Claim C3 fails at `(58, 100)`: the implementation computes the
percentage through binary64 arithmetic, `int((58 / 100) * 100) = 57`,
while the claim's `floor(58 / 100 × 100)` is 58. -/
theorem c3_counterexample :
    calculate_toner_percentage_core 58 100 = (some 57, none) ∧
    spec_percentage 58 100 = (some 58, none) ∧
    calculate_toner_percentage_core 58 100 ≠ spec_percentage 58 100 := by
  refine ⟨by decide, by decide, by decide⟩

/-- Claim C3 amended: the sentinel and no-capacity cases are as claimed,
and for `0 ≤ current_level` and `max_capacity > 0` the percentage is the
truncation of the binary64 evaluation of
`current_level / max_capacity × 100` (`pyPercent`), which can fall one
below the exact floor. -/
theorem c3_derivation_amended (c m : Int) :
    (c = -3 → calculate_toner_percentage_core c m = (none, some "OK")) ∧
    (c = -2 → calculate_toner_percentage_core c m = (none, some "Unknown")) ∧
    (c < 0 → c ≠ -3 → c ≠ -2 →
      calculate_toner_percentage_core c m = (none, some ("Status: " ++ toString c))) ∧
    (0 ≤ c → 0 < m →
      calculate_toner_percentage_core c m =
        (some ((pyPercent c.toNat m.toNat : Nat) : Int), none)) ∧
    (0 ≤ c → m ≤ 0 →
      calculate_toner_percentage_core c m = (none, some "Cannot calculate")) := by
  refine ⟨?_, ?_, ?_, ?_, ?_⟩
  · intro h; subst h; exact calc_core_neg3 m
  · intro h; subst h; exact calc_core_neg2 m
  · intro h h3 h2; exact calc_core_other_neg c m h h3 h2
  · intro h0 hm; exact calc_core_pos c m h0 hm
  · intro h0 hm; exact calc_core_nonpos_cap c m h0 hm

/-- The amended claim C3 evaluated on the specification's own test
vectors. -/
theorem c3_derivation_witness :
    calculate_toner_percentage_core (-3) 100 = (none, some "OK") ∧
    calculate_toner_percentage_core (-2) 100 = (none, some "Unknown") ∧
    calculate_toner_percentage_core 30 100 = (some 30, none) ∧
    calculate_toner_percentage_core 30 0 = (none, some "Cannot calculate") :=
  ⟨(c3_derivation_amended (-3) 100).1 rfl,
   (c3_derivation_amended (-2) 100).2.1 rfl,
   by decide, by decide⟩

/-! ## Claim C2 -/

/-- Claim C2 fails on `get_or_create_printer`: two calls with address
`10.0.0.1` and models `"ModelA"` then `"ModelB"` leave one row whose
stored model is the FIRST call's `"ModelA"`, not the second's (the
update runs only `WHERE model IS NULL`). -/
theorem c2_counterexample :
    (gocTwice "10.0.0.1" "P1" "P1" none none (some "ModelA") (some "ModelB") 10 20).rows =
      [⟨1, "10.0.0.1", "P1", none, some "ModelA", 10⟩] ∧
    some "ModelA" ≠ some "ModelB" := by
  refine ⟨by decide, by decide⟩

/-- Claim C2 amended: two upserts with the same address and two
different model values leave exactly one row with `first_seen` from the
first call; in `add_printer_to_db` the second call's model wins, but in
`get_or_create_printer` the model is only filled where it is NULL, so
the first call's model is kept. -/
theorem c2_upsert_amended (ip n1 n2 : String) (l1 l2 : Option String)
    (m1 m2 : String) (t1 t2 : Nat) (hne : m1 ≠ m2) :
    ((gocTwice ip n1 n2 l1 l2 (some m1) (some m2) t1 t2).rows =
      [⟨1, ip, n1, l1, some m1, t1⟩]) ∧
    ((addTwice ip n1 n2 l1 l2 (some m1) (some m2) t1 t2).rows =
      [⟨1, ip, n2, l2, some m2, t1⟩]) := by
  constructor
  · show (get_or_create_printer
      (get_or_create_printer emptyDB t1 ip n1 l1 (some m1)).1 t2 ip n2 l2 (some m2)).1.rows = _
    rw [get_or_create_printer]
    simp only [emptyDB, findByIp]
    rw [get_or_create_printer]
    simp only [List.nil_append, findByIp, if_pos rfl, truthyS]
    by_cases hm : m2 = ""
    · simp [hm]
    · simp only [bne_iff_ne, ne_eq, hm, not_false_eq_true, if_pos, updateModelIfNull,
        List.map_cons, List.map_nil]
      rw [if_neg]
      simp only [not_and]
      intro _
      simp
  · show (add_printer_to_db
      (add_printer_to_db emptyDB t1 ⟨ip, n1, l1, some m1⟩).1 t2 ⟨ip, n2, l2, some m2⟩).1.rows = _
    rw [add_printer_to_db]
    simp only [emptyDB, findByIp]
    rw [add_printer_to_db]
    simp only [List.nil_append, findByIp, if_pos rfl]
    simp [Option.getD]

/-- The amended claim C2 at concrete values. -/
theorem c2_upsert_witness :
    ((gocTwice "10.0.0.1" "A" "B" (some "L1") (some "L2")
        (some "M1") (some "M2") 5 9).rows =
      [⟨1, "10.0.0.1", "A", some "L1", some "M1", 5⟩]) ∧
    ((addTwice "10.0.0.1" "A" "B" (some "L1") (some "L2")
        (some "M1") (some "M2") 5 9).rows =
      [⟨1, "10.0.0.1", "B", some "L2", some "M2", 5⟩]) :=
  c2_upsert_amended "10.0.0.1" "A" "B" (some "L1") (some "L2") "M1" "M2" 5 9 (by decide)

/-! ## Claim C4 -/

/-- Claim C4 fails on the drum channel: `c4DrumRow` is readable (both
level and capacity resolved) and matches the drum keyword, its
derivation yields the status outcome (`current_level = -3`), and the
extractor records neither a percentage nor a status for it — the metrics
dictionary has no drum-status key, so the channel stays entirely
absent. -/
theorem c4_counterexample :
    truthyS c4DrumRow.current_level = true ∧
    truthyS c4DrumRow.max_capacity = true ∧
    isDrumRow c4DrumRow = true ∧
    calculate_toner_percentage (c4DrumRow.current_level.getD "")
      (c4DrumRow.max_capacity.getD "") = (none, some "OK") ∧
    processSupply initMetrics c4DrumRow = initMetrics := by
  refine ⟨rfl, rfl, by decide, by decide, by decide⟩

/-- Claim C4 amended: for a single readable toner row processed from the
empty sample exactly one of the toner percentage and the toner status is
populated; a readable drum row can only populate the drum percentage —
when its derivation yields a status the row changes nothing and the drum
channel stays absent. -/
theorem c4_exactly_one_amended (s : Supply)
    (hc : truthyS s.current_level = true) (hm : truthyS s.max_capacity = true) :
    (isTonerRow s = true →
      ((processSupply initMetrics s).toner_level_pct.isSome = true ∧
        (processSupply initMetrics s).toner_status = none) ∨
      ((processSupply initMetrics s).toner_level_pct = none ∧
        (processSupply initMetrics s).toner_status.isSome = true)) ∧
    (isTonerRow s = false → isDrumRow s = true →
      ((calculate_toner_percentage (s.current_level.getD "")
          (s.max_capacity.getD "")).1 = none →
        processSupply initMetrics s = initMetrics) ∧
      (∀ p, (calculate_toner_percentage (s.current_level.getD "")
          (s.max_capacity.getD "")).1 = some p →
        processSupply initMetrics s = { initMetrics with drum_level_pct := some p })) := by
  constructor
  · intro ht
    rw [processSupply, if_pos (by rw [hc, hm]; rfl), if_pos ht]
    rcases calc_shape (s.current_level.getD "") (s.max_capacity.getD "") with
      ⟨h1, h2⟩ | ⟨h1, st, h2, hst⟩
    · left
      rcases Option.isSome_iff_exists.mp h1 with ⟨p, hp⟩
      simp only [applyToner, hp, h2]
      exact ⟨rfl, rfl⟩
    · right
      simp only [applyToner, h1, h2, if_pos hst]
      exact ⟨rfl, rfl⟩
  · intro ht hd
    rw [processSupply, if_pos (by rw [hc, hm]; rfl), if_neg (by rw [ht]; simp), if_pos hd]
    constructor
    · intro h1
      simp only [applyDrum, h1]
    · intro p hp
      simp only [applyDrum, hp]

/-- The amended claim C4 at the concrete toner row. -/
theorem c4_exactly_one_witness :
    (isTonerRow c4TonerRow = true →
      ((processSupply initMetrics c4TonerRow).toner_level_pct.isSome = true ∧
        (processSupply initMetrics c4TonerRow).toner_status = none) ∨
      ((processSupply initMetrics c4TonerRow).toner_level_pct = none ∧
        (processSupply initMetrics c4TonerRow).toner_status.isSome = true)) ∧
    (isTonerRow c4TonerRow = false → isDrumRow c4TonerRow = true →
      ((calculate_toner_percentage (c4TonerRow.current_level.getD "")
          (c4TonerRow.max_capacity.getD "")).1 = none →
        processSupply initMetrics c4TonerRow = initMetrics) ∧
      (∀ p, (calculate_toner_percentage (c4TonerRow.current_level.getD "")
          (c4TonerRow.max_capacity.getD "")).1 = some p →
        processSupply initMetrics c4TonerRow =
          { initMetrics with drum_level_pct := some p })) :=
  c4_exactly_one_amended c4TonerRow (by decide) (by decide)

/-! ## Claim C5 -/

/-- Claim C5's second half fails: a collection run in which only the
model probe resolves succeeds (the model counts toward the any-field
test), and the persisted metrics row has all five metric columns null —
a stored row in which every metric field is null. -/
theorem c5_counterexample :
    monitorStep 7 (get_printer_metrics_async none (some "HP LaserJet") none (fun _ => none)) =
      some ⟨7, none, none, none, none, none⟩ := by
  decide

/-- Claim C5 amended: a run where all five probes (page counter, model,
device status, and every supply row) return absent yields no sample at
all, and a sample is returned only when some dictionary field resolved —
but since the model counts toward that test without being persisted, a
stored metrics row can still have every metric column null (exactly the
model-only case). -/
theorem c5_all_absent_amended :
    get_printer_metrics_async none none none (fun _ => none) = none ∧
    (∀ (tp mo ds : Option String) (supplyAt : Nat → Option Supply) (m : Metrics),
      get_printer_metrics_async tp mo ds supplyAt = some m → anyFieldSome m = true) := by
  constructor
  · decide
  · intro tp mo ds supplyAt m h
    rw [get_printer_metrics_async] at h
    by_cases ha : anyFieldSome
        (foldSupplies (setDeviceStatus (setModel (setTotalPages initMetrics tp) mo) ds) supplyAt) = true
    · rw [if_pos ha] at h
      cases h
      exact ha
    · rw [if_neg ha] at h
      exact absurd h (by simp)

/-- The amended claim C5's second conjunct evaluated at the model-only
run. -/
theorem c5_all_absent_witness :
    anyFieldSome { initMetrics with model := some "HP LaserJet" } = true :=
  c5_all_absent_amended.2 none (some "HP LaserJet") none (fun _ => none)
    { initMetrics with model := some "HP LaserJet" } (by decide)

/-! ## Claim C6 -/

/-- Claim C6: the single-value probe is a total function into
`Option String` — it cannot raise — and every failure mode decodes to
`none`: a raised exception, a protocol error indication, a protocol
error status, a value containing the `"No Such"` placeholder, and a
value that is empty after stripping. -/
theorem c6_probe_never_raises (ip oid : String) (timeout : Nat)
    (ei es : Bool) (v : String) :
    snmp_get ip oid timeout SnmpResponse.exn = none ∧
    snmp_get ip oid timeout (SnmpResponse.result true es v) = none ∧
    snmp_get ip oid timeout (SnmpResponse.result ei true v) = none ∧
    (strContains v "No Such" = true →
      snmp_get ip oid timeout (SnmpResponse.result ei es v) = none) ∧
    ((pyStrip v.data).isEmpty = true →
      snmp_get ip oid timeout (SnmpResponse.result ei es v) = none) ∧
    (strContains v "No Such" = false → (pyStrip v.data).isEmpty = false →
      snmp_get ip oid timeout (SnmpResponse.result false false v) = some v) := by
  refine ⟨rfl, rfl, ?_, ?_, ?_, ?_⟩
  · cases ei <;> rfl
  · intro h
    cases ei
    · cases es
      · simp [snmp_get, h]
      · rfl
    · rfl
  · intro h
    cases ei
    · cases es
      · simp [snmp_get, h]
      · rfl
    · rfl
  · intro h1 h2
    simp [snmp_get, h1, h2]

/-- Claim C6's decoding evaluated at concrete responses. -/
theorem c6_probe_witness :
    snmp_get "10.0.0.9" "1.3.6.1.2.1.1.1.0" 2
        (SnmpResponse.result false false "No Such Object currently exists") = none ∧
    snmp_get "10.0.0.9" "1.3.6.1.2.1.1.1.0" 2
        (SnmpResponse.result false false "  ") = none ∧
    snmp_get "10.0.0.9" "1.3.6.1.2.1.1.1.0" 2
        (SnmpResponse.result false false "Brother MFC-L5915DW") =
      some "Brother MFC-L5915DW" :=
  ⟨(c6_probe_never_raises "10.0.0.9" "1.3.6.1.2.1.1.1.0" 2 false false
      "No Such Object currently exists").2.2.2.1 (by decide),
   (c6_probe_never_raises "10.0.0.9" "1.3.6.1.2.1.1.1.0" 2 false false
      "  ").2.2.2.2.1 (by decide),
   (c6_probe_never_raises "10.0.0.9" "1.3.6.1.2.1.1.1.0" 2 false false
      "Brother MFC-L5915DW").2.2.2.2.2 (by decide) (by decide)⟩

/-! ## Claim C9 -/

/-- Claim C9: a supply row whose current level or max capacity did not
resolve to a truthy value is skipped before the description keywords are
consulted — the metrics are unchanged, whatever the description says. -/
theorem c9_unreadable_row_skipped (m : Metrics) (s : Supply)
    (h : truthyS s.current_level = false ∨ truthyS s.max_capacity = false) :
    processSupply m s = m := by
  rw [processSupply, if_neg]
  rcases h with h | h <;> rw [h] <;> simp

/-- Claim C9 evaluated at a toner-keyword row with no current level. -/
theorem c9_unreadable_row_witness :
    processSupply initMetrics ⟨some "Black Toner Cartridge", none, none, some "100", none⟩ =
      initMetrics :=
  c9_unreadable_row_skipped initMetrics
    ⟨some "Black Toner Cartridge", none, none, some "100", none⟩ (Or.inl rfl)

/-! ## Claim C10 -/

/-- Claim C10: the model probe's value counts toward the any-field
success test, so a run where only the model resolves returns a sample;
`save_metrics` does not persist the model, so the inserted row has
`total_pages`, `toner_level_pct`, `toner_status`, `drum_level_pct` and
`device_status` all null. -/
theorem c10_model_only_run (v : String) (pid : Nat) (h : v ≠ "") :
    get_printer_metrics_async none (some v) none (fun _ => none) =
      some ⟨none, some v, none, none, none, none⟩ ∧
    save_metrics pid ⟨none, some v, none, none, none, none⟩ =
      ⟨pid, none, none, none, none, none⟩ := by
  constructor
  · have hm : truthyS (some v) = true := by simp [truthyS, bne_iff_ne, h]
    simp [get_printer_metrics_async, setTotalPages, setModel, setDeviceStatus,
      truthyS, foldSupplies, anyFieldSome, initMetrics, bne_iff_ne, h]
  · rfl

/-! ## Claim C7: lemmas about the walk loop -/

theorem walkIdx_length (resp : Nat → WalkResp) :
    ∀ (l : List Nat) (acc : List (Nat × String)),
      (walkIdx resp l acc).length ≤ acc.length + l.length := by
  intro l
  induction l with
  | nil => intro acc; simp [walkIdx]
  | cons i rest ih =>
    intro acc
    rcases hr : resp i with _ | _ | v <;> simp only [walkIdx, hr]
    · simp only [List.length_cons]; omega
    · simp only [List.length_cons]; omega
    · by_cases hg : goodVal v = true
      · rw [if_pos hg]
        have := ih (acc ++ [(i, v)])
        simp only [List.length_append, List.length_cons, List.length_nil] at this ⊢
        omega
      · rw [if_neg hg]
        by_cases hs : 5 < i ∧ acc ≠ []
        · rw [if_pos hs]; simp only [List.length_cons]; omega
        · rw [if_neg hs]
          have := ih acc
          simp only [List.length_cons] at this ⊢
          omega

theorem walkIdx_sound (resp : Nat → WalkResp) :
    ∀ (l : List Nat) (acc : List (Nat × String)) (q : Nat × String),
      q ∈ walkIdx resp l acc →
      q ∈ acc ∨ (q.1 ∈ l ∧ resp q.1 = WalkResp.ok q.2 ∧ goodVal q.2 = true) := by
  intro l
  induction l with
  | nil => intro acc q hq; exact Or.inl hq
  | cons i rest ih =>
    intro acc q hq
    rcases hr : resp i with _ | _ | v <;> simp only [walkIdx, hr] at hq
    · exact Or.inl hq
    · exact Or.inl hq
    · by_cases hg : goodVal v = true
      · rw [if_pos hg] at hq
        rcases ih (acc ++ [(i, v)]) q hq with hmem | ⟨h1, h2, h3⟩
        · rcases List.mem_append.mp hmem with hmem | hmem
          · exact Or.inl hmem
          · have hqe : q = (i, v) := List.mem_singleton.mp hmem
            subst hqe
            exact Or.inr ⟨List.mem_cons_self i rest, hr, hg⟩
        · exact Or.inr ⟨List.mem_cons_of_mem i h1, h2, h3⟩
      · rw [if_neg hg] at hq
        by_cases hs : 5 < i ∧ acc ≠ []
        · rw [if_pos hs] at hq; exact Or.inl hq
        · rw [if_neg hs] at hq
          rcases ih acc q hq with hmem | ⟨h1, h2, h3⟩
          · exact Or.inl hmem
          · exact Or.inr ⟨List.mem_cons_of_mem i h1, h2, h3⟩

theorem walkIdx_indices_sub (resp : Nat → WalkResp) :
    ∀ (l : List Nat) (acc : List (Nat × String)),
      ((walkIdx resp l acc).map Prod.fst).Sublist ((acc.map Prod.fst) ++ l) := by
  intro l
  induction l with
  | nil => intro acc; simp [walkIdx]
  | cons i rest ih =>
    intro acc
    rcases hr : resp i with _ | _ | v <;> simp only [walkIdx, hr]
    · exact List.sublist_append_left _ _
    · exact List.sublist_append_left _ _
    · by_cases hg : goodVal v = true
      · rw [if_pos hg]
        have := ih (acc ++ [(i, v)])
        simp only [List.map_append, List.map_cons, List.map_nil, List.append_assoc,
          List.singleton_append] at this
        exact this
      · rw [if_neg hg]
        by_cases hs : 5 < i ∧ acc ≠ []
        · rw [if_pos hs]; exact List.sublist_append_left _ _
        · rw [if_neg hs]
          exact (ih acc).trans
            (List.Sublist.append_left (List.sublist_cons_self i rest) _)

theorem sorted_range' : ∀ (n s : Nat), List.Sorted (fun a b => a < b) (List.range' s n) := by
  intro n
  induction n with
  | zero => intro s; simp [List.range']
  | succ k ih =>
    intro s
    rw [List.range'_succ]
    rw [List.sorted_cons]
    refine ⟨?_, ih (s + 1)⟩
    intro b hb
    have := (List.mem_range'_1.mp hb).1
    omega

/-- Claim C7 fails on the termination condition: in this run index 1
returns a placeholder (no value) and index 2 returns `"X"`, yet the walk
does not terminate at index 1 — it skips it and still collects index 2
(an early missing value, at index ≤ 5 or before any collected value,
does not stop the loop). -/
theorem c7_counterexample :
    snmp_walk
        (fun i => if i = 1 then WalkResp.ok "No Such Object currently exists"
          else if i = 2 then WalkResp.ok "X" else WalkResp.err)
        "1.3.6.1.2.1.43.11.1.1.6.1" =
      [("1.3.6.1.2.1.43.11.1.1.6.1.2", "X")] := by
  decide

/-- Claim C7 amended: the walk probes successive integer suffixes
starting at 1 up to the fixed maximum of 19 indices and returns a finite
ordered sequence of (object-id-with-index, value) pairs, one per
successfully probed index in increasing index order; it terminates early
on a protocol error or exception, or when an index greater than 5
returns no value after at least one collected value — an earlier missing
value is skipped rather than terminal. -/
theorem c7_walk_amended (resp : Nat → WalkResp) (base : String) :
    (snmp_walk resp base).length ≤ 19 ∧
    List.Sorted (fun a b => a < b)
      ((walkIdx resp (List.range' 1 19) []).map Prod.fst) ∧
    (∀ q ∈ walkIdx resp (List.range' 1 19) [],
      1 ≤ q.1 ∧ q.1 ≤ 19 ∧ resp q.1 = WalkResp.ok q.2 ∧ goodVal q.2 = true) ∧
    (∀ r ∈ snmp_walk resp base, ∃ q ∈ walkIdx resp (List.range' 1 19) [],
      r = (base ++ "." ++ toString q.1, q.2)) := by
  refine ⟨?_, ?_, ?_, ?_⟩
  · rw [snmp_walk, List.length_map]
    have := walkIdx_length resp (List.range' 1 19) []
    simpa using this
  · have hsub := walkIdx_indices_sub resp (List.range' 1 19) []
    simp only [List.map_nil, List.nil_append] at hsub
    exact (sorted_range' 19 1).sublist hsub
  · intro q hq
    rcases walkIdx_sound resp (List.range' 1 19) [] q hq with hmem | ⟨h1, h2, h3⟩
    · cases hmem
    · have := List.mem_range'_1.mp h1
      exact ⟨this.1, by omega, h2, h3⟩
  · intro r hr
    rw [snmp_walk] at hr
    rcases List.mem_map.mp hr with ⟨q, hq, hqe⟩
    exact ⟨q, hq, hqe.symm⟩

/-- The amended claim C7 evaluated at the counterexample's run. -/
theorem c7_walk_witness :
    (snmp_walk
        (fun i => if i = 1 then WalkResp.ok "No Such Object currently exists"
          else if i = 2 then WalkResp.ok "X" else WalkResp.err)
        "1.3.6.1.2.1.43.11.1.1.6.1").length ≤ 19 :=
  (c7_walk_amended
    (fun i => if i = 1 then WalkResp.ok "No Such Object currently exists"
      else if i = 2 then WalkResp.ok "X" else WalkResp.err)
    "1.3.6.1.2.1.43.11.1.1.6.1").1

/-! ## Claim C8 -/

/-- Claim C8: the liveness sweep's result is a subset of the subnet's
host addresses, and for every standard prefix (up to /30) the network
and broadcast addresses are excluded.  (For /31 and /32, `hosts()`
follows RFC 3021/host-route special cases, which is what "per standard
subnetting rules" leaves as the only hosts.) -/
theorem c8_sweep_subset (alive : Nat → Bool) (addr p : Nat) :
    (∀ x ∈ ping_sweep_windows alive addr p, x ∈ hostsOf addr p) ∧
    (p ≤ 30 →
      networkAddress addr p ∉ ping_sweep_windows alive addr p ∧
      broadcastAddress addr p ∉ ping_sweep_windows alive addr p) := by
  constructor
  · intro x hx
    exact (List.mem_filter.mp hx).1
  · intro hp
    have hpow : 4 ≤ 2 ^ (32 - p) := by
      calc (4 : Nat) = 2 ^ 2 := by norm_num
      _ ≤ 2 ^ (32 - p) := Nat.pow_le_pow_right (by norm_num) (by omega)
    have hne32 : p ≠ 32 := by omega
    have hne31 : p ≠ 31 := by omega
    constructor
    · intro hx
      have hmem := (List.mem_filter.mp hx).1
      rw [hostsOf, if_neg hne32, if_neg hne31] at hmem
      have := (List.mem_range'_1.mp hmem).1
      omega
    · intro hx
      have hmem := (List.mem_filter.mp hx).1
      rw [hostsOf, if_neg hne32, if_neg hne31] at hmem
      have h2 := (List.mem_range'_1.mp hmem).2
      rw [broadcastAddress] at h2
      omega

/-- Claim C8 evaluated on the spec's example subnet `192.0.2.0/30`
(network 3221225984): every swept address is a host address and the
network and broadcast addresses are excluded. -/
theorem c8_sweep_witness :
    (∀ x ∈ ping_sweep_windows (fun a => a % 2 = 0) 3221225984 30,
      x ∈ hostsOf 3221225984 30) ∧
    networkAddress 3221225984 30 ∉ ping_sweep_windows (fun a => a % 2 = 0) 3221225984 30 ∧
    broadcastAddress 3221225984 30 ∉ ping_sweep_windows (fun a => a % 2 = 0) 3221225984 30 :=
  ⟨(c8_sweep_subset (fun a => a % 2 = 0) 3221225984 30).1,
   (c8_sweep_subset (fun a => a % 2 = 0) 3221225984 30).2 (by decide)⟩

/-- Claim C10 at a concrete model string. -/
theorem c10_model_only_witness :
    get_printer_metrics_async none (some "HP LaserJet") none (fun _ => none) =
      some ⟨none, some "HP LaserJet", none, none, none, none⟩ ∧
    save_metrics 3 ⟨none, some "HP LaserJet", none, none, none, none⟩ =
      ⟨3, none, none, none, none, none⟩ :=
  c10_model_only_run "HP LaserJet" 3 (by decide)
